import Mathlib

/-!
Verification of the reminder subsystem of the sletish Telegram bot
(src/internal/services/reminder.go) against its natural-language
specification.

The relational store is embedded as lists of rows; SQL statements are
translated into filter/map/sort operations with the same semantics.
A reminder row carries the joined media title and external id, which is
what the two SELECT ... JOIN queries of the service return (the foreign
key from reminders.media_id to media.id guarantees the join only attaches
those two columns).  External collaborators (the postgres connection, the
Jikan API, the Telegram sender, the redis cache and the JSON codec) are
passed in as explicit oracle values and functions, so that every
infrastructure outcome the Go code distinguishes is a case of the model.
-/

/-- A row of the reminders table, joined with media.title and
media.external_id as in the two SELECT queries of reminder.go. -/
structure Reminder where
  id : Nat
  userId : String
  mediaId : Nat
  message : String
  remindAt : Int
  sent : Bool
  createdAt : Int
  mediaTitle : String
  externalId : String
deriving DecidableEq, Repr

/-- A row of the media table (the columns the reminder subsystem reads). -/
structure Media where
  id : Nat
  externalId : String
  title : String
deriving DecidableEq, Repr

/-- The persistent store: the reminders and media tables plus the SERIAL
counters that assign fresh primary keys. -/
structure Store where
  reminders : List Reminder
  media : List Media
  nextReminderId : Nat
  nextMediaId : Nat
deriving DecidableEq, Repr

/-- Go strconv.Atoi: an optional leading sign followed by at least one
decimal digit, rejected when the value does not fit in a 64-bit int
(Go int on the target platform); used by sendReminderNotification to turn
the opaque user id into a Telegram chat id. -/
def atoi (s : String) : Option Int :=
  let rest : List Char :=
    match s.data with
    | '+' :: r => r
    | '-' :: r => r
    | r => r
  let sign : Int := match s.data with | '-' :: _ => -1 | _ => 1
  if rest.isEmpty then none
  else if rest.all Char.isDigit then
    let v : Int := sign * (rest.foldl (fun acc c => acc * 10 + (c.toNat - 48)) 0 : Nat)
    if -(2 ^ 63) ≤ v ∧ v ≤ 2 ^ 63 - 1 then some v else none
  else none

/-- ORDER BY r.remind_at ASC. -/
def remLE (a b : Reminder) : Prop := a.remindAt ≤ b.remindAt

instance : DecidableRel remLE := fun a b => inferInstanceAs (Decidable (a.remindAt ≤ b.remindAt))

instance : IsTotal Reminder remLE := ⟨fun a b => Int.le_total a.remindAt b.remindAt⟩

instance : IsTrans Reminder remLE := ⟨fun _ _ _ => Int.le_trans⟩

/-- The batch query of processDueReminders:
SELECT ... WHERE r.sent = false AND r.remind_at <= $1
ORDER BY r.remind_at ASC LIMIT 50. -/
def findDueUnsent (st : Store) (now : Int) : List Reminder :=
  ((st.reminders.filter (fun r => !r.sent && decide (r.remindAt ≤ now))).insertionSort remLE).take 50

/-- UPDATE reminders SET sent = true WHERE id = $1, applied to the rows. -/
def markSentRows (rs : List Reminder) (rid : Nat) : List Reminder :=
  rs.map (fun r => if r.id = rid then { r with sent := true } else r)

/-- The store after the UPDATE of markReminderAsSent. -/
def markSentStore (st : Store) (rid : Nat) : Store :=
  { st with reminders := markSentRows st.reminders rid }

/-- markReminderAsSent: runs the UPDATE and returns an error only when the
store itself fails (dbOk = false); the number of rows affected is never
inspected, so updating an already-sent or absent row is not an error. -/
def markReminderAsSent (dbOk : Bool) (st : Store) (rid : Nat) : Except String Store :=
  if dbOk then .ok (markSentStore st rid) else .error "failed to mark reminder as sent"

/-- How the per-row rows.Scan call of processDueReminders behaves.
The code as written (byValue) passes the struct fields themselves —
reminder.ID, reminder.UserID, ... — to rows.Scan instead of pointers to
them (the ampersands are missing, unlike the correct scan in
GetUserReminders), and the pgx driver rejects every non-pointer scan
destination, so each row produces a scan error and is skipped.
byPointer models the evident intent, where the row is read into the
struct and processing continues. -/
inductive ScanMode
  | byValue
  | byPointer
deriving DecidableEq, Repr

/-- The result of rows.Scan for one fetched row. -/
def scanRow : ScanMode → Reminder → Option Reminder
  | .byValue, _ => none
  | .byPointer, r => some r

/-- Outcome of sendReminderNotification for one reminder. -/
inductive SendResult
  | invalidUserId
  | sendFailed
  | sent
deriving DecidableEq, Repr

/-- The notification text built by fmt.Sprintf in sendReminderNotification
(the January 2, 2006 date rendering is abstracted to the integer value of
remind_at; no claim inspects the text). -/
def renderNotification (mediaTitle message externalId : String) (remindAt : Int) : String :=
  "Reminder! " ++ mediaTitle ++ " | " ++ message ++ " | set for " ++ toString remindAt ++
    " | https://myanimelist.net/anime/" ++ externalId

/-- sendReminderNotification: strconv.Atoi on the user id, then
SendTelegramMessage.  The second component lists the chat ids actually
handed to the Telegram sender: it is empty exactly when Atoi fails,
because the function returns before SendTelegramMessage is reached. -/
def sendReminderNotification (sender : Int → String → Bool) (userId mediaTitle externalId message : String)
    (remindAt : Int) : SendResult × List Int :=
  match atoi userId with
  | none => (.invalidUserId, [])
  | some chatId =>
      ((if sender chatId (renderNotification mediaTitle message externalId remindAt)
        then .sent else .sendFailed), [chatId])

/-- Accumulator of the rows.Next loop of processDueReminders: the store
being updated, the processedCount and errorCount counters, and the chat
ids passed to the Telegram sender so far. -/
structure TickResult where
  store : Store
  processed : Nat
  errors : Nat
  contacted : List Int
deriving DecidableEq, Repr

/-- One iteration of the rows.Next loop: scan the row, send the
notification, mark the reminder sent; each failure increments errorCount
and continues with the next row (markOk is the per-id health of the
UPDATE in markReminderAsSent). -/
def tickStep (sender : Int → String → Bool) (markOk : Nat → Bool) (mode : ScanMode)
    (acc : TickResult) (row : Reminder) : TickResult :=
  match scanRow mode row with
  | none => { acc with errors := acc.errors + 1 }
  | some r =>
      match sendReminderNotification sender r.userId r.mediaTitle r.externalId r.message r.remindAt with
      | (.invalidUserId, _) => { acc with errors := acc.errors + 1 }
      | (.sendFailed, cs) => { acc with errors := acc.errors + 1, contacted := acc.contacted ++ cs }
      | (.sent, cs) =>
          if markOk r.id then
            { acc with
                store := markSentStore acc.store r.id
                processed := acc.processed + 1
                contacted := acc.contacted ++ cs }
          else { acc with errors := acc.errors + 1, contacted := acc.contacted ++ cs }

/-- One scheduler tick (processDueReminders): fetch the due batch and run
the rows.Next loop over it. -/
def processDueReminders (mode : ScanMode) (sender : Int → String → Bool) (markOk : Nat → Bool)
    (now : Int) (st : Store) : TickResult :=
  (findDueUnsent st now).foldl (tickStep sender markOk mode) ⟨st, 0, 0, []⟩

/-- The store after n consecutive scheduler ticks. -/
def tickN (mode : ScanMode) (sender : Int → String → Bool) (markOk : Nat → Bool) (now : Int) :
    Nat → Store → Store
  | 0, st => st
  | n + 1, st => tickN mode sender markOk now n (processDueReminders mode sender markOk now st).store

/-- The anime payload returned by the Jikan API client (the fields
createMediaFromJikan stores). -/
structure AnimeData where
  malId : Int
  title : String
deriving DecidableEq, Repr

/-- Error sites of CreateReminder, one per distinct fmt.Errorf.  The
first four are the input validations (ValidationError in the spec
taxonomy); mediaFailure wraps any error of getOrCreateMediaByExternalID
and insertFailure wraps a failed reminder INSERT. -/
inductive CreateErr
  | emptyUserId
  | invalidMediaId
  | emptyMessage
  | pastRemindAt
  | mediaFailure
  | insertFailure
deriving DecidableEq, Repr

/-- Whether a CreateReminder error comes from one of the four input
validations. -/
def isValidationErr : CreateErr → Bool
  | .emptyUserId => true
  | .invalidMediaId => true
  | .emptyMessage => true
  | .pastRemindAt => true
  | _ => false

/-- Whether a CreateReminder outcome is a validation failure. -/
def isValidationResult : Option CreateErr → Bool
  | some e => isValidationErr e
  | none => false

/-- Health of the external collaborators consulted by CreateReminder:
the SELECT on media, the Jikan API response, the media INSERT and the
reminder INSERT. -/
structure CreateOracles where
  selectOk : Bool
  jikan : Option AnimeData
  mediaInsertOk : Bool
  reminderInsertOk : Bool
deriving DecidableEq, Repr

/-- getOrCreateMediaByExternalID: SELECT the media row whose external_id
is strconv.Itoa(animeID); on no row, fetch the anime from the Jikan API
and INSERT it (createMediaFromJikan, whose row takes its external id from
the MalID the API returned).  Only the media table is ever written. -/
def getOrCreateMediaByExternalID (ora : CreateOracles) (st : Store) (animeID : Int) :
    Store × Except CreateErr Media :=
  if ora.selectOk then
    match st.media.find? (fun mrow => mrow.externalId = toString animeID) with
    | some mrow => (st, .ok mrow)
    | none =>
        match ora.jikan with
        | none => (st, .error .mediaFailure)
        | some anime =>
            if ora.mediaInsertOk then
              let mnew : Media := ⟨st.nextMediaId, toString anime.malId, anime.title⟩
              ({ st with media := st.media ++ [mnew], nextMediaId := st.nextMediaId + 1 }, .ok mnew)
            else (st, .error .mediaFailure)
  else (st, .error .mediaFailure)

/-- CreateReminder: the four validations in source order (userID empty,
mediaID <= 0, message empty, remindAt.Before(now) — Go Before is a strict
comparison), then getOrCreateMediaByExternalID (whose error is wrapped
into the one failed-to-get/create-media error), then the INSERT of the
reminder row with sent = false.  The returned store is the store as left
behind by the call, also on failure. -/
def CreateReminder (ora : CreateOracles) (now : Int) (st : Store) (userId : String)
    (mediaId : Int) (message : String) (remindAt : Int) : Store × Option CreateErr :=
  if userId = "" then (st, some .emptyUserId)
  else if mediaId ≤ 0 then (st, some .invalidMediaId)
  else if message = "" then (st, some .emptyMessage)
  else if remindAt < now then (st, some .pastRemindAt)
  else
    match getOrCreateMediaByExternalID ora st mediaId with
    | (st2, .error _e) => (st2, some .mediaFailure)
    | (st2, .ok media) =>
        if ora.reminderInsertOk then
          ({ st2 with
              reminders := st2.reminders ++
                [{ id := st2.nextReminderId, userId := userId, mediaId := media.id,
                   message := message, remindAt := remindAt, sent := false, createdAt := now,
                   mediaTitle := media.title, externalId := media.externalId }]
              nextReminderId := st2.nextReminderId + 1 }, none)
        else (st2, some .insertFailure)

/-- Error kinds of CancelReminder: notFound is the single
"reminder not found or already sent" error returned whenever zero rows
were affected; dependency is a failed DELETE. -/
inductive CancelErr
  | notFound
  | dependency
deriving DecidableEq, Repr

/-- The WHERE clause of the DELETE in CancelReminder. -/
def cancelMatch (userId : String) (rid : Nat) (r : Reminder) : Bool :=
  decide (r.id = rid ∧ r.userId = userId ∧ r.sent = false)

/-- CancelReminder: DELETE FROM reminders WHERE id = $1 AND user_id = $2
AND sent = false; when RowsAffected() = 0 the one notFound error is
returned, regardless of which of the three causes (absent row, already
sent, owned by another user) made the row count zero. -/
def CancelReminder (dbOk : Bool) (st : Store) (userId : String) (rid : Nat) :
    Store × Option CancelErr :=
  if dbOk then
    let remaining := st.reminders.filter (fun r => !cancelMatch userId rid r)
    if st.reminders.length - remaining.length = 0 then
      ({ st with reminders := remaining }, some .notFound)
    else ({ st with reminders := remaining }, none)
  else (st, some .dependency)

/-- The store query of GetUserReminders:
SELECT ... WHERE r.user_id = $1 [AND r.sent = false] ORDER BY r.remind_at ASC. -/
def listByUser (rs : List Reminder) (userId : String) (includeSent : Bool) : List Reminder :=
  (rs.filter (fun r => r.userId = userId && (includeSent || !r.sent))).insertionSort remLE

/-- The outcome of the redis Get in GetUserReminders.  go-redis returns
the pair ("", err) whenever the read errors (a miss or an unreachable
cache), and (payload, nil) on a hit. -/
inductive CacheGet
  | errored
  | hit (payload : String)
deriving DecidableEq, Repr

instance {α β : Type} [DecidableEq α] [DecidableEq β] : DecidableEq (Except α β) := fun
  | .ok a, .ok b =>
      match decEq a b with
      | isTrue h => isTrue (by rw [h])
      | isFalse h => isFalse (by intro hh; cases hh; exact h rfl)
  | .ok _, .error _ => isFalse (by intro h; cases h)
  | .error _, .ok _ => isFalse (by intro h; cases h)
  | .error a, .error b =>
      match decEq a b with
      | isTrue h => isTrue (by rw [h])
      | isFalse h => isFalse (by intro hh; cases hh; exact h rfl)

/-- What GetUserReminders produced: the returned list or error, and the
time-to-live (in seconds) of the cache Set performed afterwards, if any. -/
structure ListOutcome where
  result : Except String (List Reminder)
  cacheSetTTL : Option Nat
deriving DecidableEq, Repr

/-- reminderCacheTTL = 10 * time.Minute, in seconds. -/
def reminderCacheTTLSeconds : Nat := 600

/-- GetUserReminders, translated branch for branch.  After the redis Get
the code tests err != nil — not err == nil — so the json.Unmarshal of the
cached payload runs only when the Get FAILED (where the payload go-redis
handed back is the empty string), and a successful Get falls through to
the store query; decode is the json.Unmarshal collaborator. -/
def GetUserReminders (hasRedis : Bool) (cacheGet : CacheGet)
    (decode : String → Option (List Reminder)) (dbOk : Bool) (st : Store)
    (userId : String) (includeSent : Bool) : ListOutcome :=
  let fromDb : ListOutcome :=
    if dbOk then
      { result := .ok (listByUser st.reminders userId includeSent)
        cacheSetTTL := if hasRedis then some reminderCacheTTLSeconds else none }
    else { result := .error "failed to query reminders", cacheSetTTL := none }
  if hasRedis then
    match cacheGet with
    | .errored =>
        match decode "" with
        | some rs => { result := .ok rs, cacheSetTTL := none }
        | none => fromDb
    | .hit _ => fromDb
  else fromDb

/-- The scheduler lifecycle flag owned by the ReminderService. -/
structure WorkerState where
  isRunning : Bool
deriving DecidableEq, Repr

/-- StopWorker: sets isRunning to false; nothing else. -/
def StopWorker (w : WorkerState) : WorkerState := { w with isRunning := false }

/-- The worker loop of StartReminderWorker: at each ticker firing the
isRunning flag is read at the top of the loop body; false breaks out of
the loop, true runs one full tick to completion.  flags is the sequence
of flag values observed at the successive firings. -/
def workerLoop (flags : List Bool) (tickFn : Store → Store) (st : Store) : Store :=
  match flags with
  | [] => st
  | f :: fs => if f then workerLoop fs tickFn (tickFn st) else st

/- Concrete fixtures used by the counterexamples and witnesses. -/

/-- Three due reminders for three users; user "8" is the middle one. -/
def rBatch1 : Reminder := ⟨1, "7", 1, "m1", 1, false, 0, "T", "100"⟩

def rBatch2 : Reminder := ⟨2, "8", 1, "m2", 2, false, 0, "T", "100"⟩

def rBatch3 : Reminder := ⟨3, "9", 1, "m3", 3, false, 0, "T", "100"⟩

def st3 : Store := ⟨[rBatch1, rBatch2, rBatch3], [⟨1, "100", "T"⟩], 4, 2⟩

/-- A Telegram sender that fails exactly for chat id 8 (the 2nd reminder
of st3) and succeeds for everyone else. -/
def sender2 : Int → String → Bool := fun chatId _t => !(chatId == 8)

/-- A sender that always succeeds. -/
def senderT : Int → String → Bool := fun _c _t => true

/-- A markReminderAsSent UPDATE that always succeeds. -/
def markAll : Nat → Bool := fun _i => true

/-- The i-th of 60 due reminders: id i+1, due at time i+1. -/
def mkR (i : Nat) : Reminder := ⟨i + 1, "5", 1, "m", (i : Int) + 1, false, 0, "T", "100"⟩

/-- A store with 60 due unsent reminders. -/
def st60 : Store := ⟨(List.range 60).map mkR, [⟨1, "100", "T"⟩], 61, 2⟩

/-- Oracles under which every collaborator of CreateReminder succeeds. -/
def okOra : CreateOracles := ⟨true, none, true, true⟩

/-- A store whose media table already holds external id "5". -/
def stMed : Store := ⟨[], [⟨1, "5", "SG"⟩], 1, 2⟩

/-- A 201-character message. -/
def msg201 : String := String.mk (List.replicate 201 'a')

/-- An already-sent single-reminder store (for the C4 witness). -/
def stS : Store := ⟨[⟨1, "7", 1, "m", 1, true, 0, "T", "100"⟩], [⟨1, "100", "T"⟩], 2, 2⟩

/-- A cancellable reminder of user "7" (for the C5 witness). -/
def rW : Reminder := ⟨1, "7", 1, "m", 5, false, 0, "T", "100"⟩

def stW : Store := ⟨[rW], [⟨1, "100", "T"⟩], 2, 2⟩

/-- A due reminder whose user id does not parse as an integer. -/
def rBad : Reminder := ⟨1, "12a", 1, "m", 1, false, 0, "T", "100"⟩

def stBad : Store := ⟨[rBad], [⟨1, "100", "T"⟩], 2, 2⟩

/-- The cached-list value of the C6 scenario: a one-element list that
differs from what the store holds. -/
def rCached : Reminder := ⟨9, "7", 1, "c", 4, true, 0, "T", "100"⟩

/-- A JSON decoder (an instance of the json.Unmarshal collaborator) that
successfully decodes exactly the payload "CACHED"; in particular, like
json.Unmarshal, it fails on the empty string. -/
def decode0 : String → Option (List Reminder) := fun s =>
  if s = "CACHED" then some [rCached] else none

/-- A store with two reminders of user "7" (for the C6 scenario). -/
def stC : Store :=
  ⟨[⟨1, "7", 1, "a", 1, false, 0, "T", "100"⟩, ⟨2, "7", 1, "b", 2, true, 0, "T", "100"⟩],
    [⟨1, "100", "T"⟩], 3, 2⟩

/- Helper lemmas about the row-level operations. -/

theorem markSentRows_idem (rs : List Reminder) (rid : Nat) :
    markSentRows (markSentRows rs rid) rid = markSentRows rs rid := by
  induction rs with
  | nil => rfl
  | cons a t ih =>
      simp only [markSentRows, List.map_cons] at ih ⊢
      by_cases h : a.id = rid <;> simp [h, ih]

theorem markSentRows_map_id (rs : List Reminder) (rid : Nat) :
    (markSentRows rs rid).map Reminder.id = rs.map Reminder.id := by
  induction rs with
  | nil => rfl
  | cons a t ih =>
      simp only [markSentRows, List.map_cons] at ih ⊢
      by_cases h : a.id = rid <;> simp [h, ih]

theorem mem_markSentRows_of_ne (rs : List Reminder) (rid : Nat) (r : Reminder)
    (h : r ∈ rs) (hne : ¬r.id = rid) : r ∈ markSentRows rs rid := by
  have hm := List.mem_map_of_mem (fun x => if x.id = rid then { x with sent := true } else x) h
  simpa [markSentRows, hne] using hm

theorem markSentRows_eq_self (rs : List Reminder) (rid : Nat)
    (h : ∀ r ∈ rs, r.id = rid → r.sent = true) : markSentRows rs rid = rs := by
  induction rs with
  | nil => rfl
  | cons a t ih =>
      simp only [markSentRows, List.map_cons]
      have ht : markSentRows t rid = t :=
        ih (fun r hr => h r (List.mem_cons_of_mem a hr))
      simp only [markSentRows] at ht
      rw [ht]
      by_cases ha : a.id = rid
      · have hs : a.sent = true := h a (List.mem_cons_self a t) ha
        cases a
        simp_all
      · simp [ha]

theorem markSentStore_idem (st : Store) (rid : Nat) :
    markSentStore (markSentStore st rid) rid = markSentStore st rid := by
  simp [markSentStore, markSentRows_idem]

theorem markSentStore_eq_self (st : Store) (rid : Nat)
    (h : ∀ r ∈ st.reminders, r.id = rid → r.sent = true) : markSentStore st rid = st := by
  simp only [markSentStore, markSentRows_eq_self st.reminders rid h]

theorem length_filter_lt_of_mem {p : Reminder → Bool} {l : List Reminder} {r : Reminder}
    (hr : r ∈ l) (hp : p r = false) : (l.filter p).length < l.length := by
  induction l with
  | nil => cases hr
  | cons a t ih =>
      rcases List.mem_cons.mp hr with rfl | hmem
      · rw [List.filter_cons, if_neg (by simp [hp])]
        exact Nat.lt_succ_of_le (List.length_filter_le p t)
      · by_cases hpa : p a = true
        · rw [List.filter_cons, if_pos hpa, List.length_cons, List.length_cons]
          exact Nat.succ_lt_succ (ih hmem)
        · rw [List.filter_cons, if_neg hpa]
          exact Nat.lt_succ_of_lt (ih hmem)

/-- C4: markSent is idempotent — marking twice equals marking once,
repeating the call on an already-marked store succeeds with no error, and
on a store where every row with the id is already sent the UPDATE is a
no-op that leaves the store unchanged and raises no error. -/
theorem C4_markSent_idempotent (st : Store) (rid : Nat) :
    markSentStore (markSentStore st rid) rid = markSentStore st rid ∧
    markReminderAsSent true (markSentStore st rid) rid = .ok (markSentStore st rid) ∧
    ((∀ r ∈ st.reminders, r.id = rid → r.sent = true) →
      markSentStore st rid = st ∧ markReminderAsSent true st rid = .ok st) := by
  refine ⟨markSentStore_idem st rid, ?_, ?_⟩
  · simp [markReminderAsSent, markSentStore_idem]
  · intro h
    have he := markSentStore_eq_self st rid h
    exact ⟨he, by simp [markReminderAsSent, he]⟩

theorem C4_witness :
    markSentStore stS 1 = stS ∧ markReminderAsSent true stS 1 = .ok stS :=
  (C4_markSent_idempotent stS 1).2.2 (by decide)

/-- The store CancelReminder leaves behind is always the DELETE of the
matching rows (also when it then reports notFound). -/
theorem cancelStore_eq (st : Store) (u : String) (rid : Nat) :
    (CancelReminder true st u rid).1.reminders
      = st.reminders.filter (fun r => !cancelMatch u rid r) := by
  simp only [CancelReminder, if_true]
  split <;> rfl

/-- C5: cancelReminder deletes exactly the rows that have the given id,
belong to the calling user and are unsent; when no such row exists —
whether the reminder is absent, already sent, or owned by another user —
it returns the one notFound error with the store unchanged, so the three
causes are externally indistinguishable; when such a row exists it
succeeds. -/
theorem C5_cancelGuard (st : Store) (u : String) (rid : Nat) :
    ((∀ r ∈ st.reminders, ¬(r.id = rid ∧ r.userId = u ∧ r.sent = false)) →
        CancelReminder true st u rid = (st, some .notFound)) ∧
    (∀ r ∈ st.reminders, r.id = rid → r.userId = u → r.sent = false →
        (CancelReminder true st u rid).2 = none) ∧
    (∀ r : Reminder, r ∈ (CancelReminder true st u rid).1.reminders ↔
        r ∈ st.reminders ∧ ¬(r.id = rid ∧ r.userId = u ∧ r.sent = false)) := by
  refine ⟨?_, ?_, ?_⟩
  · intro h
    have hfe : st.reminders.filter (fun r => !cancelMatch u rid r) = st.reminders :=
      List.filter_eq_self.mpr (fun a ha => by
        simp only [cancelMatch, Bool.not_eq_eq_eq_not, Bool.not_true, decide_eq_false_iff_not]
        exact h a ha)
    simp only [CancelReminder, if_true, hfe, Nat.sub_self, reduceIte]
  · intro r hr h1 h2 h3
    have hlt : (st.reminders.filter (fun r => !cancelMatch u rid r)).length
        < st.reminders.length :=
      length_filter_lt_of_mem hr (by simp [cancelMatch, h1, h2, h3])
    simp only [CancelReminder, if_true]
    rw [if_neg (Nat.sub_ne_zero_of_lt hlt)]
  · intro r
    rw [cancelStore_eq]
    simp only [List.mem_filter, cancelMatch, Bool.not_eq_eq_eq_not, Bool.not_true,
      decide_eq_false_iff_not]

theorem C5_witness : (CancelReminder true stW "7" 1).2 = none :=
  (C5_cancelGuard stW "7" 1).2.1 rW (by decide) rfl rfl rfl

/-- C9: stopping the scheduler is cooperative.  StopWorker only clears
the isRunning flag; the worker loop reads the flag at the top of each
iteration, so a false flag means no new tick begins and the loop
terminates, and the loop runs exactly one complete tick per firing whose
observed flag was true before the first false one. -/
theorem C9_cooperativeStop (w : WorkerState) (flags fs : List Bool)
    (tickFn : Store → Store) (st : Store) :
    (StopWorker w).isRunning = false ∧
    workerLoop (false :: fs) tickFn st = st ∧
    workerLoop flags tickFn st = Nat.iterate tickFn (flags.takeWhile (fun b => b)).length st := by
  refine ⟨rfl, rfl, ?_⟩
  induction flags generalizing st with
  | nil => rfl
  | cons f fs ih =>
      cases f
      · rfl
      · simp only [workerLoop, List.takeWhile_cons, if_true, List.length_cons,
          Function.iterate_succ_apply]
        exact ih (tickFn st)

/-- getOrCreateMediaByExternalID never writes the reminders table. -/
theorem getOrCreateMedia_reminders (ora : CreateOracles) (st : Store) (aid : Int) :
    (getOrCreateMediaByExternalID ora st aid).1.reminders = st.reminders := by
  unfold getOrCreateMediaByExternalID
  split
  · split
    · rfl
    · split
      · rfl
      · split <;> rfl
  · rfl

/-- The only error getOrCreateMediaByExternalID produces is the
get/create-media failure. -/
theorem getOrCreateMedia_error (ora : CreateOracles) (st : Store) (aid : Int)
    (e : CreateErr) (h : (getOrCreateMediaByExternalID ora st aid).2 = .error e) :
    e = .mediaFailure := by
  unfold getOrCreateMediaByExternalID at h
  split at h
  · split at h
    · cases h
    · split at h
      · cases h
        rfl
      · split at h
        · cases h
        · cases h
          rfl
  · cases h
    rfl

/-- C2 (amended): the time validation of createReminder rejects exactly
the strictly-past remindAt values — remindAt.Before(now) is a strict
comparison — failing with a ValidationError that leaves the store
untouched. -/
theorem C2_amended_thm (ora : CreateOracles) (now : Int) (st : Store) (u : String)
    (m : Int) (msg : String) (rAt : Int) (h : rAt < now) :
    (CreateReminder ora now st u m msg rAt).1 = st ∧
    isValidationResult (CreateReminder ora now st u m msg rAt).2 = true := by
  unfold CreateReminder
  split_ifs <;> exact ⟨rfl, rfl⟩

theorem C2_witness :
    (CreateReminder okOra 0 stMed "7" 5 "hi" (-1)).1 = stMed ∧
    isValidationResult (CreateReminder okOra 0 stMed "7" 5 "hi" (-1)).2 = true :=
  C2_amended_thm okOra 0 stMed "7" 5 "hi" (-1) (by decide)

/-- C2 (counterexample): a remindAt exactly equal to the current time is
not rejected — with every collaborator healthy, createReminder succeeds
and inserts the row, contradicting the claim that remindAt = now always
fails with a ValidationError and creates no reminder. -/
theorem C2_counterexample :
    (CreateReminder okOra 0 stMed "7" 5 "hi" 0).2 = none ∧
    (CreateReminder okOra 0 stMed "7" 5 "hi" 0).1.reminders.length = 1 := by
  decide

/-- C7 (amended): the only message validation of createReminder is
non-emptiness — an empty message fails with a ValidationError before the
store is touched; no upper length bound is checked. -/
theorem C7_amended_thm (ora : CreateOracles) (now : Int) (st : Store) (u : String)
    (m : Int) (msg : String) (rAt : Int) (h : msg = "") :
    (CreateReminder ora now st u m msg rAt).1 = st ∧
    isValidationResult (CreateReminder ora now st u m msg rAt).2 = true := by
  unfold CreateReminder
  split_ifs <;> exact ⟨rfl, rfl⟩

theorem C7_witness :
    (CreateReminder okOra 0 stMed "7" 5 "" 3).1 = stMed ∧
    isValidationResult (CreateReminder okOra 0 stMed "7" 5 "" 3).2 = true :=
  C7_amended_thm okOra 0 stMed "7" 5 "" 3 rfl

set_option maxRecDepth 10000 in
/-- C7 (counterexample): a 201-character message passes every validation
of createReminder — with healthy collaborators the call succeeds and
inserts the row, contradicting the claim that messages longer than 200
characters fail with a ValidationError. -/
theorem C7_counterexample :
    msg201.length = 201 ∧
    (CreateReminder okOra 0 stMed "7" 5 msg201 3).2 = none ∧
    (CreateReminder okOra 0 stMed "7" 5 msg201 3).1.reminders.length = 1 := by
  decide

/-- C8: createReminder is atomic with respect to failure — whenever it
returns an error, the reminders table is exactly as before the call (the
media table may have gained the lazily-created media row), and whenever
the error is one of the four input validations the whole store is
untouched, because all validation precedes every write. -/
theorem C8_createAtomic (ora : CreateOracles) (now : Int) (st : Store) (u : String)
    (m : Int) (msg : String) (rAt : Int) (e : CreateErr)
    (h : (CreateReminder ora now st u m msg rAt).2 = some e) :
    (CreateReminder ora now st u m msg rAt).1.reminders = st.reminders ∧
    (isValidationErr e = true → (CreateReminder ora now st u m msg rAt).1 = st) := by
  unfold CreateReminder at h ⊢
  split_ifs at h ⊢
  · exact ⟨rfl, fun _ => rfl⟩
  · exact ⟨rfl, fun _ => rfl⟩
  · exact ⟨rfl, fun _ => rfl⟩
  · exact ⟨rfl, fun _ => rfl⟩
  · revert h
    rcases hg : getOrCreateMediaByExternalID ora st m with ⟨st2, r2⟩
    intro h
    have hrem : st2.reminders = st.reminders := by
      have hx := getOrCreateMedia_reminders ora st m
      rw [hg] at hx
      exact hx
    cases r2 with
    | error e0 =>
        have he : CreateErr.mediaFailure = e := Option.some.inj h
        refine ⟨hrem, fun hv => ?_⟩
        rw [← he] at hv
        simp [isValidationErr] at hv
    | ok med => exact Option.noConfusion h
  · revert h
    rcases hg : getOrCreateMediaByExternalID ora st m with ⟨st2, r2⟩
    intro h
    have hrem : st2.reminders = st.reminders := by
      have hx := getOrCreateMedia_reminders ora st m
      rw [hg] at hx
      exact hx
    cases r2 with
    | error e0 =>
        have he : CreateErr.mediaFailure = e := Option.some.inj h
        refine ⟨hrem, fun hv => ?_⟩
        rw [← he] at hv
        simp [isValidationErr] at hv
    | ok med =>
        have he : CreateErr.insertFailure = e := Option.some.inj h
        refine ⟨hrem, fun hv => ?_⟩
        rw [← he] at hv
        simp [isValidationErr] at hv

/-- Every row of the fetched batch is a row of the store. -/
theorem mem_of_mem_findDueUnsent (st : Store) (now : Int) (b : Reminder)
    (hb : b ∈ findDueUnsent st now) : b ∈ st.reminders := by
  have h1 : b ∈ (st.reminders.filter
      (fun r => !r.sent && decide (r.remindAt ≤ now))).insertionSort remLE :=
    List.take_subset 50 _ hb
  have h2 := (List.mem_insertionSort remLE).mp h1
  exact List.filter_subset' st.reminders h2

/-- The rows.Next loop never changes the ids of the stored reminders
(only sent flags are flipped). -/
theorem foldl_tickStep_map_id (sender : Int → String → Bool) (markOk : Nat → Bool)
    (mode : ScanMode) (l : List Reminder) :
    ∀ acc : TickResult,
      ((l.foldl (tickStep sender markOk mode) acc).store.reminders.map Reminder.id)
        = acc.store.reminders.map Reminder.id := by
  induction l with
  | nil => intro acc; rfl
  | cons b bs ih =>
      intro acc
      rw [List.foldl_cons, ih]
      unfold tickStep
      cases mode with
      | byValue => rfl
      | byPointer =>
          rcases hs : sendReminderNotification sender b.userId b.mediaTitle b.externalId
              b.message b.remindAt with ⟨sr, cs⟩
          cases sr with
          | invalidUserId => simp only [scanRow, hs]
          | sendFailed => simp only [scanRow, hs]
          | sent =>
              by_cases hmk : markOk b.id = true
              · simp only [scanRow, hs, hmk, if_true]
                exact markSentRows_map_id acc.store.reminders b.id
              · simp only [scanRow, hs, hmk, Bool.false_eq_true, reduceIte]

/-- A reminder whose user id does not parse survives the rows.Next loop
untouched, provided no other row of the batch carries its id. -/
theorem foldl_tickStep_mem (sender : Int → String → Bool) (markOk : Nat → Bool)
    (mode : ScanMode) (r : Reminder) (l : List Reminder) :
    ∀ acc : TickResult,
      (∀ b ∈ l, b.id = r.id → atoi b.userId = none) →
      r ∈ acc.store.reminders →
      r ∈ (l.foldl (tickStep sender markOk mode) acc).store.reminders := by
  induction l with
  | nil => intro acc _ hmem; exact hmem
  | cons b bs ih =>
      intro acc hl hmem
      rw [List.foldl_cons]
      refine ih _ (fun b2 hb2 => hl b2 (List.mem_cons_of_mem b hb2)) ?_
      unfold tickStep
      cases mode with
      | byValue => exact hmem
      | byPointer =>
          rcases hs : sendReminderNotification sender b.userId b.mediaTitle b.externalId
              b.message b.remindAt with ⟨sr, cs⟩
          cases sr with
          | invalidUserId => simp only [scanRow, hs]; exact hmem
          | sendFailed => simp only [scanRow, hs]; exact hmem
          | sent =>
              have hba : atoi b.userId ≠ none := by
                intro ha
                unfold sendReminderNotification at hs
                rw [ha] at hs
                cases hs
              have hneid : ¬r.id = b.id := by
                intro hid
                exact hba (hl b (List.mem_cons_self b bs) hid.symm)
              by_cases hmk : markOk b.id = true
              · simp only [scanRow, hs, hmk, if_true]
                exact mem_markSentRows_of_ne acc.store.reminders b.id r hmem hneid
              · simp only [scanRow, hs, hmk, Bool.false_eq_true, reduceIte]
                exact hmem

/-- One tick never touches a reminder whose user id fails to parse
(ids of the store are assumed distinct, as the primary key guarantees). -/
theorem processDueReminders_mem (mode : ScanMode) (sender : Int → String → Bool)
    (markOk : Nat → Bool) (now : Int) (st : Store) (r : Reminder)
    (hr : atoi r.userId = none) (hmem : r ∈ st.reminders)
    (hnodup : (st.reminders.map Reminder.id).Nodup) :
    r ∈ (processDueReminders mode sender markOk now st).store.reminders := by
  refine foldl_tickStep_mem sender markOk mode r (findDueUnsent st now) ⟨st, 0, 0, []⟩
    ?_ hmem
  intro b hb hid
  have hbmem : b ∈ st.reminders := mem_of_mem_findDueUnsent st now b hb
  have hbr : b = r := List.inj_on_of_nodup_map hnodup hbmem hmem hid
  rw [hbr]
  exact hr

/-- A tick preserves the id column of the store. -/
theorem processDueReminders_map_id (mode : ScanMode) (sender : Int → String → Bool)
    (markOk : Nat → Bool) (now : Int) (st : Store) :
    (processDueReminders mode sender markOk now st).store.reminders.map Reminder.id
      = st.reminders.map Reminder.id :=
  foldl_tickStep_map_id sender markOk mode (findDueUnsent st now) ⟨st, 0, 0, []⟩

/-- A reminder whose user id fails to parse is still present, unchanged,
after any number of ticks. -/
theorem tickN_mem (mode : ScanMode) (sender : Int → String → Bool) (markOk : Nat → Bool)
    (now : Int) (n : Nat) :
    ∀ st : Store, ∀ r : Reminder, atoi r.userId = none → r ∈ st.reminders →
      (st.reminders.map Reminder.id).Nodup →
      r ∈ (tickN mode sender markOk now n st).reminders := by
  induction n with
  | zero => intro st r _ hmem _; exact hmem
  | succ k ih =>
      intro st r hinv hmem hnodup
      show r ∈ (tickN mode sender markOk now k
        (processDueReminders mode sender markOk now st).store).reminders
      refine ih _ r hinv
        (processDueReminders_mem mode sender markOk now st r hinv hmem hnodup) ?_
      rw [processDueReminders_map_id]
      exact hnodup

/-- C10: the opaque user id must parse as a decimal integer for delivery:
when it does not, sendReminderNotification fails without handing anything
to the Telegram sender (the contacted list is empty, whatever the sender
does), and under any number of scheduler ticks the reminder is never
marked sent — the very same unsent row is still in the store and still
due, so it is refetched indefinitely. -/
theorem C10_invalidUserId (mode : ScanMode) (sender : Int → String → Bool)
    (markOk : Nat → Bool) (st : Store) (r : Reminder) (now : Int) (n : Nat)
    (hinv : atoi r.userId = none) (hmem : r ∈ st.reminders)
    (hnodup : (st.reminders.map Reminder.id).Nodup)
    (hunsent : r.sent = false) (hdue : r.remindAt ≤ now) :
    sendReminderNotification sender r.userId r.mediaTitle r.externalId r.message r.remindAt
      = (.invalidUserId, []) ∧
    r ∈ (tickN mode sender markOk now n st).reminders ∧
    r.sent = false ∧ r.remindAt ≤ now := by
  refine ⟨?_, tickN_mem mode sender markOk now n st r hinv hmem hnodup, hunsent, hdue⟩
  unfold sendReminderNotification
  rw [hinv]

theorem C10_witness :
    sendReminderNotification senderT rBad.userId rBad.mediaTitle rBad.externalId rBad.message
      rBad.remindAt = (.invalidUserId, []) ∧
    rBad ∈ (tickN .byPointer senderT markAll 10 3 stBad).reminders ∧
    rBad.sent = false ∧ rBad.remindAt ≤ 10 :=
  C10_invalidUserId .byPointer senderT markAll stBad rBad 10 3 (by decide) (by decide)
    (by decide) rfl (by decide)

/-- C1: partial-failure isolation over a batch of 3 due reminders where
only the send of the 2nd fails.  As written (scan destinations passed by
value), every row of the batch errors at rows.Scan: after the tick all
three reminders still have sent = false, the Telegram sender was never
contacted and errorCount is 3 — so the claimed outcome (1st and 3rd
marked sent) does not hold on the code, although the loop does continue
past each failure.  With the evident pointer scan the tick produces
exactly the claimed outcome: sent flags true, false, true. -/
theorem C1_partialFailure_scanBug :
    (processDueReminders .byValue sender2 markAll 10 st3).store.reminders.map Reminder.sent
      = [false, false, false] ∧
    (processDueReminders .byValue sender2 markAll 10 st3).contacted = [] ∧
    (processDueReminders .byValue sender2 markAll 10 st3).errors = 3 ∧
    (processDueReminders .byPointer sender2 markAll 10 st3).store.reminders.map Reminder.sent
      = [true, false, true] := by
  decide

set_option maxRecDepth 100000 in
/-- C3: with 60 due reminders the fetch returns exactly the 50 oldest due
unsent rows in ascending remind_at order (ids 1..50), so the limit and
the ordering hold; but as written (value scan destinations, cf. C1) a
tick with an always-succeeding sender marks nothing sent, the next tick
refetches the same oldest 50, and after two ticks zero reminders are
sent — the remaining 10 are never picked up.  Under the evident pointer
scan the first tick marks exactly the 50 oldest, the second tick fetches
the remaining 10 (ids 51..60) and marks them, as the claim describes. -/
theorem C3_limit_scanBug :
    (findDueUnsent st60 1000).map Reminder.id = (List.range 50).map (fun i => i + 1) ∧
    (findDueUnsent st60 1000).length = 50 ∧
    (processDueReminders .byValue senderT markAll 1000 st60).store = st60 ∧
    (findDueUnsent (processDueReminders .byValue senderT markAll 1000 st60).store 1000).map
      Reminder.id = (List.range 50).map (fun i => i + 1) ∧
    (tickN .byValue senderT markAll 1000 2 st60).reminders.countP (fun r => r.sent) = 0 ∧
    (tickN .byPointer senderT markAll 1000 1 st60).reminders.countP (fun r => r.sent) = 50 ∧
    (findDueUnsent (tickN .byPointer senderT markAll 1000 1 st60) 1000).map Reminder.id
      = (List.range 10).map (fun i => i + 51) ∧
    (tickN .byPointer senderT markAll 1000 2 st60).reminders.countP (fun r => r.sent) = 60 := by
  decide

/-- C6: the cached value is never served.  With a reachable cache holding
a fresh, decodable entry for the requested key (payload "CACHED", which
decode0 maps to the one-element list [rCached]), GetUserReminders still
answers from the store — the hit branch is skipped because the code tests
err != nil instead of err == nil — and the answer differs from the cached
list.  The fallback direction does hold: with the cache erroring
(unreachable or miss) it returns the store data with no error and
repopulates the cache with the 600-second time-to-live. -/
theorem C6_cacheHitIgnored :
    decode0 "CACHED" = some [rCached] ∧
    (GetUserReminders true (.hit "CACHED") decode0 true stC "7" true).result
      = .ok (listByUser stC.reminders "7" true) ∧
    ¬(GetUserReminders true (.hit "CACHED") decode0 true stC "7" true).result
      = .ok [rCached] ∧
    (GetUserReminders true .errored decode0 true stC "7" true).result
      = .ok (listByUser stC.reminders "7" true) ∧
    (GetUserReminders true .errored decode0 true stC "7" true).cacheSetTTL
      = some reminderCacheTTLSeconds := by
  decide

theorem C8_witness :
    (CreateReminder okOra 0 stMed "" 5 "hi" 3).2 = some .emptyUserId ∧
    ((CreateReminder okOra 0 stMed "" 5 "hi" 3).1.reminders = stMed.reminders ∧
      (isValidationErr .emptyUserId = true → (CreateReminder okOra 0 stMed "" 5 "hi" 3).1 = stMed)) :=
  ⟨by decide, C8_createAtomic okOra 0 stMed "" 5 "hi" 3 .emptyUserId (by decide)⟩
